import Mathlib

/-!
Verification development for the Service Dashboard repository.

The development shallowly embeds the report/archive logic of `logic.py`
and of the legacy dashboard scripts that drive it, and proves the
behavioural claims about it.

Modelling conventions:
* Spreadsheet cells are `String`s; a worksheet is a `List (List String)`
  (the first row being the header row, as returned by `get_all_values`).
* Timestamps are seconds since an epoch, as `Int`.  The pandas date part
  `.dt.date` of a timestamp is its floor-division by 86400, and the
  integer day count `.days` of a timedelta is the floor-division of its
  total seconds by 86400 (both match the floor semantics of Python).
* Calendar dates are day numbers (`Int`), so `date + timedelta(days=1)`
  is `d + 1`.  ISO `YYYY-MM-DD` strings compare in the same order as the
  day numbers they denote, so sorting archive keys descending and taking
  the head is taken to be the maximum day number.
* Missing values (`pandas.NaT` and unparseable datetimes) are `none`.
-/

namespace SD

/-- ASCII whitespace stripped by `str.strip()` on the data appearing here. -/
def isWs (c : Char) : Bool := c = ' ' || c = '\t' || c = '\n' || c = '\r'

/-- `str.strip()`: drop leading and trailing whitespace.  Defined over the
character list so that concrete instances reduce in the kernel. -/
def stripStr (s : String) : String :=
  ⟨((s.data.dropWhile isWs).reverse.dropWhile isWs).reverse⟩

/-- `str.lower()` (ASCII, matching the data handled by the dashboard). -/
def lowerStr (s : String) : String := ⟨s.data.map Char.toLower⟩

/-- `str(x).strip().lower()` as used for identity comparison in the Python
code. -/
def pyNorm (s : String) : String := lowerStr (stripStr s)

/-- `col.str.lower() == 'yes'`. -/
def isYes (s : String) : Bool := lowerStr s == "yes"

/-- `col.str.lower().isin(lvals)`. -/
def lowerIn (s : String) (lvals : List String) : Bool := lvals.contains (lowerStr s)

/-- Date part of a timestamp (`.dt.date`), as a day number. -/
def tsDate (t : Int) : Int := t.fdiv 86400

/-- `(now - t).days` of a pandas/Python timedelta: floor of the span in days. -/
def deltaDays (now t : Int) : Int := (now - t).fdiv 86400

/-- `.dt.date == d` on a nullable timestamp column: `NaT` compares false. -/
def dateEq (t : Option Int) (d : Int) : Bool :=
  match t with
  | some ts => tsDate ts == d
  | none => false

/-- One in-memory service record, the row schema produced by
`load_data_from_google_sheet` (`EXPECTED_COLUMN_ORDER` of `logic.py`). -/
structure Record where
  rma : String
  sn : String
  spcCode : String
  estimateComplete : String
  estimateApproved : String
  reminderCompleted : String
  qaApproved : String
  shipped : String
  estimateSentToEmail : String
  reminderContactMethod : String
  estimateCompleteTime : Option Int
  estimateApprovedTime : Option Int
  estimateSentTime : Option Int
  reminderCompletedTime : Option Int
  qaApprovedTime : Option Int
  shippedTime : Option Int
deriving DecidableEq, Repr

/-- The data-model invariant of the spec (§3): the five stage statuses are
the canonical strings `Yes`/`No`, and the sent-to-email sentinel is written
canonically as `N/A` (never as a lower/mixed-case variant). -/
def Record.wellFormed (r : Record) : Prop :=
  (r.estimateComplete = "Yes" ∨ r.estimateComplete = "No") ∧
  (r.estimateApproved = "Yes" ∨ r.estimateApproved = "No") ∧
  (r.reminderCompleted = "Yes" ∨ r.reminderCompleted = "No") ∧
  (r.qaApproved = "Yes" ∨ r.qaApproved = "No") ∧
  (r.shipped = "Yes" ∨ r.shipped = "No") ∧
  (lowerStr r.estimateSentToEmail = "n/a" → r.estimateSentToEmail = "N/A")

instance (r : Record) : Decidable r.wellFormed := by
  unfold Record.wellFormed; infer_instance

/-! ## Data loading (`load_data_from_google_sheet`, logic.py lines 67-98) -/

/-- The string values that `df[col].astype(str).replace([...], 'N/A')`
maps to `'N/A'` in `logic.py` line 91 (a Python `None` cell has already
become the string `"None"` under `astype(str)`). -/
def sentinelStrings : List String := ["", "nan", "None", "NaN", "NONE", "NaT"]

/-- The five stage-status column names of `logic.py` line 92. -/
def statusColumnNames : List String :=
  ["Estimate Complete", "Estimate Approved", "Reminder Completed", "QA Approved", "Shipped"]

/-- Look up the raw cell of a named column: `none` when the column is
absent from the source sheet (then the load defaults it), otherwise the
cell string (short rows read as `""`). -/
def cellOf (headers row : List String) (col : String) : Option String :=
  (headers.findIdx? (· == col)).map (fun i => row.getD i "")

/-- `replace(['', 'nan', 'None', 'NaN', 'NONE', None, 'NaT'], 'N/A')`. -/
def replaceSentinels (v : String) : String :=
  if sentinelStrings.contains v then "N/A" else v

/-- A non-time, non-status column after loading: absent columns default to
`"N/A"`, sentinel values are replaced by `"N/A"`. -/
def loadStringCell (raw : Option String) : String :=
  match raw with
  | none => "N/A"
  | some v => replaceSentinels v

/-- A stage-status column after loading: like `loadStringCell`, then
`replace('N/A', 'No')`. -/
def loadStatusCell (raw : Option String) : String :=
  let v := loadStringCell raw
  if v = "N/A" then "No" else v

/-- A time column after loading: absent columns default to `NaT`, present
cells go through `pd.to_datetime(..., errors='coerce')`, modelled by the
parser argument (unparseable cells give `none`). -/
def loadTimeCell (parse : String → Option Int) (raw : Option String) : Option Int :=
  raw.bind parse

/-- Build one `Record` from a raw sheet row, per the column loop of
`load_data_from_google_sheet`. -/
def loadRecord (parse : String → Option Int) (headers row : List String) : Record where
  rma := loadStringCell (cellOf headers row "RMA")
  sn := loadStringCell (cellOf headers row "S/N")
  spcCode := loadStringCell (cellOf headers row "SPC Code")
  estimateComplete := loadStatusCell (cellOf headers row "Estimate Complete")
  estimateApproved := loadStatusCell (cellOf headers row "Estimate Approved")
  reminderCompleted := loadStatusCell (cellOf headers row "Reminder Completed")
  qaApproved := loadStatusCell (cellOf headers row "QA Approved")
  shipped := loadStatusCell (cellOf headers row "Shipped")
  estimateSentToEmail := loadStringCell (cellOf headers row "Estimate Sent To Email")
  reminderContactMethod := loadStringCell (cellOf headers row "Reminder Contact Method")
  estimateCompleteTime := loadTimeCell parse (cellOf headers row "Estimate Complete Time")
  estimateApprovedTime := loadTimeCell parse (cellOf headers row "Estimate Approved Time")
  estimateSentTime := loadTimeCell parse (cellOf headers row "Estimate Sent Time")
  reminderCompletedTime := loadTimeCell parse (cellOf headers row "Reminder Completed Time")
  qaApprovedTime := loadTimeCell parse (cellOf headers row "QA Approved Time")
  shippedTime := loadTimeCell parse (cellOf headers row "Shipped Time")

/-- `load_data_from_google_sheet` on the raw `get_all_values` matrix: the
first row is the header row, every later row becomes a record. -/
def load_data_from_google_sheet (parse : String → Option Int)
    (allValues : List (List String)) : List Record :=
  match allValues with
  | [] => []
  | headers :: body => body.map (loadRecord parse headers)

/-- The five status fields of a record, for stating load invariants. -/
def Record.statusList (r : Record) : List String :=
  [r.estimateComplete, r.estimateApproved, r.reminderCompleted, r.qaApproved, r.shipped]

/-! ## Single-day report generator (`generate_single_day_report_content`,
logic.py lines 476-489) -/

structure ShipTask where
  rma : String
  sn : String
  spc : String
deriving DecidableEq, Repr

structure EstTask where
  rma : String
  sn : String
  spc : String
  estCompleteDate : Int
deriving DecidableEq, Repr

structure RemTask where
  rma : String
  sn : String
  spc : String
  sentToEmail : String
  sentTime : Option Int
deriving DecidableEq, Repr

structure DailyReport where
  date : Int
  needs_shipping : List ShipTask
  needs_estimate_creation : List EstTask
  needs_reminder : List RemTask
deriving DecidableEq, Repr

/-- The `shipping_df` filter of logic.py line 478. -/
def shippingFilter (d : Int) (r : Record) : Bool :=
  isYes r.estimateComplete && isYes r.estimateApproved && isYes r.qaApproved &&
    lowerIn r.shipped ["no", "n/a"] && dateEq r.qaApprovedTime d

/-- The `estimate_df` filter of logic.py line 482 (`day_prior_to_report`). -/
def estimateCreationFilter (d : Int) (r : Record) : Bool :=
  isYes r.estimateComplete && (lowerStr r.estimateSentToEmail == "n/a") &&
    dateEq r.estimateCompleteTime (d - 1)

/-- The `reminder_df` filter of logic.py line 486 (`estimate_sent_target_date`). -/
def reminderFilter (d : Int) (r : Record) : Bool :=
  (!(lowerStr r.estimateSentToEmail == "n/a")) &&
    lowerIn r.reminderCompleted ["no", "n/a"] &&
    lowerIn r.estimateApproved ["no", "n/a"] &&
    dateEq r.estimateSentTime (d - 2)

def shipTaskOf (r : Record) : ShipTask := ⟨r.rma, r.sn, r.spcCode⟩

def estTaskOf (dayPrior : Int) (r : Record) : EstTask := ⟨r.rma, r.sn, r.spcCode, dayPrior⟩

def remTaskOf (r : Record) : RemTask :=
  ⟨r.rma, r.sn, r.spcCode, r.estimateSentToEmail, r.estimateSentTime⟩

/-- `generate_single_day_report_content(df, report_date_obj)`. -/
def generate_single_day_report_content (df : List Record) (d : Int) : DailyReport where
  date := d
  needs_shipping := (df.filter (shippingFilter d)).map shipTaskOf
  needs_estimate_creation := (df.filter (estimateCreationFilter d)).map (estTaskOf (d - 1))
  needs_reminder := (df.filter (reminderFilter d)).map remTaskOf

/-! ## Archive store and catch-up loop

`save_report_to_archive` (logic.py lines 512-532) appends a row keyed by
the report date unless that date already occurs in column 1; the archive
is modelled as the list of its data rows, a row being the date key paired
with the report payload (the JSON serialisation of the task lists is kept
as the structured payload itself). -/

structure CatchUpResult where
  archive : List (Int × DailyReport)
  saved : List DailyReport
  aborted : Bool
deriving DecidableEq, Repr

/-- `save_report_to_archive(report_data, ...)`: returns the updated
archive and the boolean result (`False` when the date key is already
present, in which case nothing is appended). -/
def save_report_to_archive (report : DailyReport) (archive : List (Int × DailyReport)) :
    List (Int × DailyReport) × Bool :=
  if report.date ∈ archive.map Prod.fst then (archive, false)
  else (archive ++ [(report.date, report)], true)

/-- `get_last_report_date_from_archive` of the legacy dashboard: the
archived reports are sorted descending by their ISO date key and the head
is parsed; on day numbers that is the maximum key.  An empty archive
defaults to `today - 1`. -/
def get_last_report_date_from_archive (archive : List (Int × DailyReport)) (today : Int) : Int :=
  match archive.map Prod.fst with
  | [] => today - 1
  | d :: ds => ds.foldl max d

/-- The body of the catch-up `while` loop of the legacy dashboard
(`Combined estimate and dashboard.py` lines 904-918), recursing on the
number of days left until `today`: the cursor date is `today - gap`.  Each
iteration generates the day report, saves it if absent, stops at `today`,
and aborts once the cursor is more than 30 days past the start. -/
def catch_up_go (df : List Record) (start today : Int) :
    Nat → List (Int × DailyReport) → List DailyReport → CatchUpResult
  | 0, archive, saved =>
    let report := generate_single_day_report_content df today
    ⟨(save_report_to_archive report archive).1,
     if (save_report_to_archive report archive).2 then saved ++ [report] else saved,
     false⟩
  | g + 1, archive, saved =>
    let current : Int := today - ((g : Int) + 1)
    let report := generate_single_day_report_content df current
    let archive2 := (save_report_to_archive report archive).1
    let saved2 := if (save_report_to_archive report archive).2 then saved ++ [report] else saved
    if current + 1 - start > 30 then ⟨archive2, saved2, true⟩
    else catch_up_go df start today g archive2 saved2

/-- The catch-up run from a given last-archived date: cursor starts at
`last + 1`; when that is already past `today` the loop is skipped. -/
def catch_up (df : List Record) (last today : Int) (archive : List (Int × DailyReport)) :
    CatchUpResult :=
  let start := last + 1
  if start > today then ⟨archive, [], false⟩
  else catch_up_go df start today (today - start).toNat archive []

/-- One on-demand catch-up invocation as the dashboard performs it: the
last archived date is read from the archive, then the loop runs. -/
def catch_up_from_archive (df : List Record) (today : Int)
    (archive : List (Int × DailyReport)) : CatchUpResult :=
  catch_up df (get_last_report_date_from_archive archive today) today archive

/-! ## Row lookup (`find_row_in_gsheet`, logic.py lines 122-138) -/

/-- First index of an element in a list, as Python `list.index` (which the
source guards with `try ... except ValueError`). -/
def listIndex (x : String) (l : List String) : Option Nat := l.findIdx? (· == x)

/-- The per-row match test of the `find_row_in_gsheet` loop: values are
taken positionally (short rows read as `""`), normalised, and compared
under the null-RMA wildcard rule. -/
def rowMatches (rmaIdx snIdx : Nat) (rmaN snN : String) (snOnly : Bool)
    (row : List String) : Bool :=
  let rmaVal := pyNorm (row.getD rmaIdx "")
  let snVal := pyNorm (row.getD snIdx "")
  if snOnly then snVal == snN && (rmaVal == "n/a" || rmaVal == "")
  else rmaVal == rmaN && snVal == snN

/-- The scan of `find_row_in_gsheet`, starting at 1-based row number `i`
(the first data row is row 2). -/
def findRowAux (rmaIdx snIdx : Nat) (rmaN snN : String) (snOnly : Bool) :
    List (List String) → Nat → Int
  | [], _ => -1
  | row :: rest, i =>
    if rowMatches rmaIdx snIdx rmaN snN snOnly row then (i : Int)
    else findRowAux rmaIdx snIdx rmaN snN snOnly rest (i + 1)

/-- `find_row_in_gsheet(worksheet, search_rma, search_sn, headers)`: the
worksheet is its `get_all_values` matrix (header row first). -/
def find_row_in_gsheet (allValues : List (List String)) (searchRma searchSn : String)
    (headers : List String) : Int :=
  match listIndex "RMA" headers, listIndex "S/N" headers with
  | some rmaIdx, some snIdx =>
    let snOnly := (["n/a", ""] : List String).contains (pyNorm searchRma)
    findRowAux rmaIdx snIdx (pyNorm searchRma) (pyNorm searchSn) snOnly (allValues.drop 1) 2
  | _, _ => -1

/-! ## The `datetime` name binding of logic.py

logic.py line 5 runs `import datetime`, binding the name to the module;
line 23 runs `from datetime import datetime`, rebinding the same name to
the class.  The last binding wins, so at call time every occurrence of
`datetime.datetime` looks up the attribute `datetime` on the class, which
does not exist and raises `AttributeError`. -/

inductive PyError where
  | attributeError
deriving DecidableEq, Repr

/-- What the module-level name `datetime` can denote in logic.py. -/
inductive DatetimeBinding where
  | module
  | classDatetime
deriving DecidableEq, Repr

/-- Binding produced by line 5, `import datetime`. -/
def binding_import_datetime : DatetimeBinding := .module

/-- Binding produced by line 23, `from datetime import datetime`. -/
def binding_from_datetime_import : DatetimeBinding := .classDatetime

/-- The binding in force in logic.py function bodies: the later import
(line 23) shadows the earlier one. -/
def logic_datetime_binding : DatetimeBinding := binding_from_datetime_import

/-- Attribute access `«binding».datetime`: the module has the class as an
attribute; the class has no attribute named `datetime`. -/
def datetime_attr_datetime : DatetimeBinding → Except PyError Unit
  | .module => .ok ()
  | .classDatetime => .error .attributeError

/-- Evaluate `datetime.datetime.now()` under the logic.py bindings; the
wall-clock value it would produce is passed as a parameter. -/
def eval_datetime_datetime_now (now : Int) : Except PyError Int :=
  match datetime_attr_datetime logic_datetime_binding with
  | .error e => .error e
  | .ok _ => .ok now

/-- Evaluate `datetime.datetime.combine(d, datetime.datetime.now().time())`
under the logic.py bindings (the combined timestamp is day seconds plus
time of day). -/
def eval_datetime_datetime_combine (d timeOfDay : Int) : Except PyError Int :=
  match datetime_attr_datetime logic_datetime_binding with
  | .error e => .error e
  | .ok _ => .ok (d * 86400 + timeOfDay)

/-! ## Business Central deep links -/

def BC_BASE_URL : String :=
  "https://businesscentral.dynamics.com/7bcfb5b0-27a1-4e18-99d8-ca66570addd8/Production"

def BC_COMPANY : String := "PROD"

def BC_PAGE_ID : String := "70001"

def BC_RMA_FIELD_NAME : String := "No."

/-- Characters `urllib.parse.quote_plus` leaves unescaped. -/
def urlSafeChar (c : Char) : Bool :=
  c.isAlphanum || c = '_' || c = '.' || c = '-' || c = '~'

def hexDigitChar (n : Nat) : Char :=
  (['0','1','2','3','4','5','6','7','8','9','A','B','C','D','E','F']).getD n '0'

/-- Percent-encode one character (the RMA values handled here are ASCII,
where code points and UTF-8 bytes coincide). -/
def percentEncode (c : Char) : String :=
  ⟨['%', hexDigitChar (c.toNat / 16), hexDigitChar (c.toNat % 16)]⟩

/-- `urllib.parse.quote_plus` on the ASCII range: spaces become `+`, safe
characters pass through, everything else is percent-encoded. -/
def quote_plus (s : String) : String :=
  s.data.foldl
    (fun acc c =>
      acc ++ (if c = ' ' then "+" else if urlSafeChar c then ⟨[c]⟩ else percentEncode c))
    ""

/-- The per-row link expression shared by the three overdue detectors of
logic.py (lines 455, 464, 473): it is applied to every overdue row and
has no null branch. -/
def bc_link_for_row (rma : String) : String :=
  BC_BASE_URL ++ "?company=" ++ BC_COMPANY ++ "&page=" ++ BC_PAGE_ID ++
    "&filter=\x27" ++ quote_plus BC_RMA_FIELD_NAME ++ "\x27%20IS%20%27" ++
    quote_plus rma ++ "%27"

/-- The guarded link builder of `pages/TXCELL Status Dashboard.py` lines
141-144: `None` unless the stripped RMA is neither `"N/A"` nor `""`. -/
def txcell_bc_link (rma : String) : Option String :=
  if stripStr rma != "N/A" && stripStr rma != "" then some (bc_link_for_row rma)
  else none

/-! ## Overdue detectors (logic.py lines 449-474) -/

/-- An output row of a detector: the source record together with the
elapsed-days column and the Business Central link column. -/
structure OverdueRow where
  record : Record
  days : Int
  bcLink : String
deriving DecidableEq, Repr

/-- The row filter of `identify_overdue_estimates` (line 452). -/
def overdueEstFilter (now threshold : Int) (r : Record) : Bool :=
  isYes r.estimateComplete && (lowerStr r.estimateSentToEmail == "n/a") &&
    lowerIn r.shipped ["no", "n/a"] &&
    (match r.estimateCompleteTime with
     | some t => deltaDays now t > threshold
     | none => false)

/-- The row filter of `identify_overdue_reminders` (line 461). -/
def overdueRemFilter (now threshold : Int) (r : Record) : Bool :=
  (!(lowerStr r.estimateSentToEmail == "n/a")) &&
    lowerIn r.reminderCompleted ["no", "n/a"] &&
    lowerIn r.estimateApproved ["no", "n/a"] &&
    (match r.estimateSentTime with
     | some t => deltaDays now t > threshold
     | none => false)

/-- The row filter of `identify_overdue_for_shipping` (line 470). -/
def overdueShipFilter (now threshold : Int) (r : Record) : Bool :=
  isYes r.estimateApproved && isYes r.qaApproved &&
    lowerIn r.shipped ["no", "n/a"] &&
    (match r.qaApprovedTime with
     | some t => deltaDays now t > threshold
     | none => false)

/-- `identify_overdue_estimates(df, days_threshold)`: an empty frame
returns empty at once; otherwise `now = datetime.datetime.now()` is
evaluated first, which raises under the logic.py bindings. -/
def identify_overdue_estimates (now : Int) (df : List Record) (days_threshold : Int) :
    Except PyError (List OverdueRow) :=
  if df.isEmpty then .ok []
  else
    match eval_datetime_datetime_now now with
    | .error e => .error e
    | .ok n =>
      .ok ((df.filter (overdueEstFilter n days_threshold)).map
        (fun r => ⟨r, deltaDays n (r.estimateCompleteTime.getD 0), bc_link_for_row r.rma⟩))

/-- `identify_overdue_reminders(df, days_threshold)`. -/
def identify_overdue_reminders (now : Int) (df : List Record) (days_threshold : Int) :
    Except PyError (List OverdueRow) :=
  if df.isEmpty then .ok []
  else
    match eval_datetime_datetime_now now with
    | .error e => .error e
    | .ok n =>
      .ok ((df.filter (overdueRemFilter n days_threshold)).map
        (fun r => ⟨r, deltaDays n (r.estimateSentTime.getD 0), bc_link_for_row r.rma⟩))

/-- `identify_overdue_for_shipping(df, days_threshold)`. -/
def identify_overdue_for_shipping (now : Int) (df : List Record) (days_threshold : Int) :
    Except PyError (List OverdueRow) :=
  if df.isEmpty then .ok []
  else
    match eval_datetime_datetime_now now with
    | .error e => .error e
    | .ok n =>
      .ok ((df.filter (overdueShipFilter n days_threshold)).map
        (fun r => ⟨r, deltaDays n (r.qaApprovedTime.getD 0), bc_link_for_row r.rma⟩))

/-! ## End-of-day reconciliation

From the `Generate End of Day Summary` handler of
`Service Dashboard Excel update test.py` (lines 668-709): each task of the
day report is re-looked-up in the live table by normalised (RMA, S/N)
equality, the first matching row decides Completed/Pending, and the
ad-hoc list collects the records shipped today whose identity pair is not
among the needs_shipping tasks.  (The free-text `Original Task`
description column is presentation only and not modelled.) -/

structure EodTask where
  rma : String
  sn : String
  spc : String
  status : String
deriving DecidableEq, Repr

structure AdhocEntry where
  rma : String
  sn : String
  spc : String
  shippedTime : Option Int
deriving DecidableEq, Repr

structure EODSummary where
  date : Int
  estimate_tasks : List EodTask
  reminder_tasks : List EodTask
  shipping_tasks : List EodTask
  adhoc_shipped_today : List AdhocEntry
deriving DecidableEq, Repr

/-- `record_df = current_data[(RMA == rma_str) & (S/N == sn_str)]` with
`.iloc[0]`: the first live row whose normalised identity equals the
normalised task identity. -/
def findLiveRecord (live : List Record) (rma sn : String) : Option Record :=
  live.find? (fun r => pyNorm r.rma == pyNorm rma && pyNorm r.sn == pyNorm sn)

/-- Classification of a `needs_estimate_creation` task: Completed when the
live `Estimate Sent To Email` is no longer `n/a`. -/
def classify_estimate_task (live : List Record) (t : EstTask) : EodTask :=
  match findLiveRecord live t.rma t.sn with
  | some r =>
    ⟨t.rma, t.sn, t.spc, if !(lowerStr r.estimateSentToEmail == "n/a") then "Completed" else "Pending"⟩
  | none => ⟨t.rma, t.sn, t.spc, "Pending"⟩

/-- Classification of a `needs_reminder` task: Completed when the live
`Reminder Completed` is `yes`. -/
def classify_reminder_task (live : List Record) (t : RemTask) : EodTask :=
  match findLiveRecord live t.rma t.sn with
  | some r =>
    ⟨t.rma, t.sn, t.spc, if lowerStr r.reminderCompleted == "yes" then "Completed" else "Pending"⟩
  | none => ⟨t.rma, t.sn, t.spc, "Pending"⟩

/-- Classification of a `needs_shipping` task: Completed when the live
`Shipped` is `yes`. -/
def classify_shipping_task (live : List Record) (t : ShipTask) : EodTask :=
  match findLiveRecord live t.rma t.sn with
  | some r =>
    ⟨t.rma, t.sn, t.spc, if lowerStr r.shipped == "yes" then "Completed" else "Pending"⟩
  | none => ⟨t.rma, t.sn, t.spc, "Pending"⟩

/-- The ad-hoc filter: shipped today, and the normalised identity pair is
absent from the needs_shipping pairs of the day report. -/
def adhocFilter (today : Int) (shipPairs : List (String × String)) (r : Record) : Bool :=
  (lowerStr r.shipped == "yes") && dateEq r.shippedTime today &&
    !(shipPairs.contains (pyNorm r.rma, pyNorm r.sn))

/-- The End of Day Summary for the archived day report and the live table
(`today` is `date.today()` at generation time, the report date). -/
def generate_end_of_day_summary (report : DailyReport) (live : List Record) (today : Int) :
    EODSummary :=
  let shipPairs := report.needs_shipping.map (fun t => (pyNorm t.rma, pyNorm t.sn))
  { date := today
  , estimate_tasks := report.needs_estimate_creation.map (classify_estimate_task live)
  , reminder_tasks := report.needs_reminder.map (classify_reminder_task live)
  , shipping_tasks := report.needs_shipping.map (classify_shipping_task live)
  , adhoc_shipped_today :=
      (live.filter (adhocFilter today shipPairs)).map
        (fun r => ⟨r.rma, r.sn, r.spcCode, r.shippedTime⟩) }

/-! ## Sheet update operations (logic.py lines 100-120 and 275-295)

The worksheet is its cell matrix.  An update helper returns either
`(ok, worksheet)` or the raised error together with the worksheet state
at raise time; `gsheet_update_wrapper` catches any exception and returns
`False`. -/

/-- Write value `v` at 1-based row `row1`, 0-based column `col`
(`worksheet.batch_update` on one cell). -/
def set_cell (ws : List (List String)) (row1 : Nat) (col : Nat) (v : String) :
    List (List String) :=
  ws.set (row1 - 1) ((ws.getD (row1 - 1) []).set col v)

/-- `worksheet.row_values(1)`. -/
def row_values_1 (ws : List (List String)) : List String := ws.headD []

/-- `_update_shipped_in_sheet`: locate the row, then build the timestamp
with `datetime.datetime.combine` (which raises under the logic.py
bindings) before writing columns T and U. -/
def update_shipped_in_sheet (ws : List (List String)) (headers : List String)
    (rma sn : String) (shippedDate timeOfDay : Int) :
    Except (PyError × List (List String)) (Bool × List (List String)) :=
  let row := find_row_in_gsheet ws rma sn headers
  if row != -1 then
    match eval_datetime_datetime_combine shippedDate timeOfDay with
    | .error e => .error (e, ws)
    | .ok ts =>
      .ok (true, set_cell (set_cell ws row.toNat 19 "Yes") row.toNat 20 (toString ts))
  else .ok (false, ws)

/-- `_update_reminder_in_sheet`: same shape, writing columns O, P and Q. -/
def update_reminder_in_sheet (ws : List (List String)) (headers : List String)
    (rma sn : String) (reminderDate timeOfDay : Int) (method : String) :
    Except (PyError × List (List String)) (Bool × List (List String)) :=
  let row := find_row_in_gsheet ws rma sn headers
  if row != -1 then
    match eval_datetime_datetime_combine reminderDate timeOfDay with
    | .error e => .error (e, ws)
    | .ok ts =>
      .ok (true,
        set_cell (set_cell (set_cell ws row.toNat 14 "Yes") row.toNat 15 (toString ts))
          row.toNat 16 method)
  else .ok (false, ws)

/-- `gsheet_update_wrapper`: run the update function on the worksheet and
its header row; any raised exception is caught and reported as `False`. -/
def gsheet_update_wrapper (ws : List (List String))
    (f : List (List String) → List String →
      Except (PyError × List (List String)) (Bool × List (List String))) :
    Bool × List (List String) :=
  match f ws (row_values_1 ws) with
  | .ok res => res
  | .error (_, ws2) => (false, ws2)

/-- `update_shipped_status_in_gsheet(rma, sn, shipped_date)`. -/
def update_shipped_status_in_gsheet (ws : List (List String)) (rma sn : String)
    (shippedDate timeOfDay : Int) : Bool × List (List String) :=
  gsheet_update_wrapper ws (fun w h => update_shipped_in_sheet w h rma sn shippedDate timeOfDay)

/-- `update_reminder_details_in_gsheet(rma, sn, reminder_date, method)`. -/
def update_reminder_details_in_gsheet (ws : List (List String)) (rma sn : String)
    (reminderDate timeOfDay : Int) (method : String) : Bool × List (List String) :=
  gsheet_update_wrapper ws
    (fun w h => update_reminder_in_sheet w h rma sn reminderDate timeOfDay method)

/-! ## Concrete sample data used by closed theorems -/

/-- A freshly normalised record with every stage unset. -/
def blankRecord : Record :=
  ⟨"N/A", "N/A", "N/A", "No", "No", "No", "No", "No", "N/A", "N/A",
    none, none, none, none, none, none⟩

/-- A record meeting every overdue-to-send condition, estimate completed
at time 0 (spec §8 example: RMA 5001). -/
def c4Record : Record :=
  { blankRecord with
    rma := "5001"
    sn := "SN001"
    estimateComplete := "Yes"
    estimateCompleteTime := some 0 }

/-- A record meeting every overdue-for-shipping condition. -/
def c8Record : Record :=
  { blankRecord with
    rma := "RMA100"
    sn := "SN9"
    estimateApproved := "Yes"
    qaApproved := "Yes"
    qaApprovedTime := some 0 }

/-- A record QA-approved on day 5, ready to ship. -/
def c2Record : Record :=
  { blankRecord with
    rma := "R2"
    sn := "S2"
    estimateComplete := "Yes"
    estimateApproved := "Yes"
    qaApproved := "Yes"
    qaApprovedTime := some (5 * 86400 + 100) }

def c3ShipTask : ShipTask := ⟨"R1", "S1", "N/A"⟩

def c3Report : DailyReport := ⟨0, [c3ShipTask], [], []⟩

/-- The live state of the day-report task, now shipped. -/
def c3LiveRecord : Record :=
  { blankRecord with
    rma := "R1"
    sn := "S1"
    shipped := "Yes"
    shippedTime := some 50 }

def c3Live : List Record := [c3LiveRecord]

/-- The backing rows of the null-RMA lookup scenario of spec §8. -/
def c5Sheet : List (List String) := [["RMA", "S/N"], ["RMA100", "SN1"], ["", "sn1"]]

/-- A raw sheet whose status cell holds a value outside the sentinel set. -/
def c7Sheet : List (List String) :=
  [["RMA", "S/N", "Estimate Complete"], ["RMA1", "SN1", "Maybe"]]

/-- The 31 consecutive dates starting at `s`. -/
def dateWindow (s : Int) : List Int := (List.range 31).map (fun k : Nat => s + (k : Int))

/-! ## Helper lemmas on normalised status strings -/

theorem isYes_iff {s : String} (h : s = "Yes" ∨ s = "No") : isYes s = true ↔ s = "Yes" := by
  rcases h with rfl | rfl <;> decide

theorem lowerYes_iff {s : String} (h : s = "Yes" ∨ s = "No") :
    (lowerStr s == "yes") = true ↔ s = "Yes" := by
  rcases h with rfl | rfl <;> decide

theorem lowerIn_no_na_iff {s : String} (h : s = "Yes" ∨ s = "No") :
    lowerIn s ["no", "n/a"] = true ↔ (s = "No" ∨ s = "N/A") := by
  rcases h with rfl | rfl <;> decide

theorem lowerIn_no_na_eq_no {s : String} (h : s = "Yes" ∨ s = "No") :
    lowerIn s ["no", "n/a"] = true ↔ s = "No" := by
  rcases h with rfl | rfl <;> decide

theorem dateEq_iff (t : Option Int) (d : Int) : dateEq t d = true ↔ t.map tsDate = some d := by
  cases t with
  | none => simp [dateEq]
  | some ts => simp [dateEq]

theorem sentNA_iff {s : String} (h : lowerStr s = "n/a" → s = "N/A") :
    (lowerStr s == "n/a") = true ↔ s = "N/A" := by
  constructor
  · intro hb; exact h (by simpa using hb)
  · rintro rfl; decide

theorem sentNA_not_iff {s : String} (h : lowerStr s = "n/a" → s = "N/A") :
    (!(lowerStr s == "n/a")) = true ↔ s ≠ "N/A" := by
  simp only [Bool.not_eq_true']
  constructor
  · intro hb hNA; rw [hNA] at hb; exact absurd hb (by decide)
  · intro hne
    cases hbe : (lowerStr s == "n/a") with
    | false => rfl
    | true => exact absurd ((sentNA_iff h).mp hbe) hne

/-! ## C10 -/

/-- C10: for every input, `update_shipped_status_in_gsheet` and
`update_reminder_details_in_gsheet` return `False` and never write to the
row store: a lookup miss skips the write, and on a hit the first statement
evaluates `datetime.datetime.combine(...)`, which raises `AttributeError`
(logic.py rebinds `datetime` to the class) before `batch_update` is
reached; `gsheet_update_wrapper` catches the exception and returns
`False`, so neither the Shipped nor the Reminder stage can ever be set
through these operations. -/
theorem c10_updates_never_write :
    ∀ (ws : List (List String)) (rma sn : String) (d t : Int) (method : String),
      update_shipped_status_in_gsheet ws rma sn d t = (false, ws) ∧
      update_reminder_details_in_gsheet ws rma sn d t method = (false, ws) := by
  intro ws rma sn d t method
  have hev : ∀ a b : Int, eval_datetime_datetime_combine a b = .error .attributeError :=
    fun _ _ => rfl
  constructor
  · by_cases hrow : (find_row_in_gsheet ws rma sn (row_values_1 ws) != -1) = true
    · simp [update_shipped_status_in_gsheet, gsheet_update_wrapper,
        update_shipped_in_sheet, hrow, hev]
    · simp [update_shipped_status_in_gsheet, gsheet_update_wrapper,
        update_shipped_in_sheet, hrow, hev]
  · by_cases hrow : (find_row_in_gsheet ws rma sn (row_values_1 ws) != -1) = true
    · simp [update_reminder_details_in_gsheet, gsheet_update_wrapper,
        update_reminder_in_sheet, hrow, hev]
    · simp [update_reminder_details_in_gsheet, gsheet_update_wrapper,
        update_reminder_in_sheet, hrow, hev]

/-! ## C9 -/

/-- C9: for every non-empty input table, each of
`identify_overdue_estimates`, `identify_overdue_reminders` and
`identify_overdue_for_shipping` raises `AttributeError` instead of
returning an overdue list, because the final import of logic.py rebinds
`datetime` to the class and `datetime.datetime.now()` then fails; only
for an empty table does each detector return an empty result. -/
theorem c9_detectors_raise :
    ∀ (now : Int) (df : List Record) (t : Int),
      (df ≠ [] →
        identify_overdue_estimates now df t = .error .attributeError ∧
        identify_overdue_reminders now df t = .error .attributeError ∧
        identify_overdue_for_shipping now df t = .error .attributeError) ∧
      identify_overdue_estimates now [] t = .ok [] ∧
      identify_overdue_reminders now [] t = .ok [] ∧
      identify_overdue_for_shipping now [] t = .ok [] := by
  intro now df t
  refine ⟨fun hne => ?_, rfl, rfl, rfl⟩
  have hemp : df.isEmpty = false := by
    cases df with
    | nil => exact absurd rfl hne
    | cons a l => rfl
  have hev : eval_datetime_datetime_now now = .error .attributeError := rfl
  refine ⟨?_, ?_, ?_⟩ <;>
    simp [identify_overdue_estimates, identify_overdue_reminders,
      identify_overdue_for_shipping, hemp, hev]

/-- Witness for C9 at a concrete one-row table. -/
theorem c9_witness :
    identify_overdue_estimates 0 [blankRecord] 3 = .error .attributeError ∧
    identify_overdue_reminders 0 [blankRecord] 2 = .error .attributeError ∧
    identify_overdue_for_shipping 0 [blankRecord] 1 = .error .attributeError :=
  ⟨((c9_detectors_raise 0 [blankRecord] 3).1 (by simp)).1,
   ((c9_detectors_raise 0 [blankRecord] 2).1 (by simp)).2.1,
   ((c9_detectors_raise 0 [blankRecord] 1).1 (by simp)).2.2⟩

/-! ## C4 -/

/-- C4 (code bug): on the record that the spec says must be reported
overdue (other conditions met and elapsed time threshold+1 days),
`identify_overdue_estimates` raises `AttributeError` instead; the row
filter itself has the strict-threshold semantics the claim states
(elapsed exactly `threshold` days excluded, `threshold + 1` included with
elapsed count threshold+1), but it is never reached. -/
theorem c4_overdue_estimates_raise_at_boundary :
    identify_overdue_estimates (4 * 86400) [c4Record] 3 = .error .attributeError ∧
    overdueEstFilter (4 * 86400) 3 c4Record = true ∧
    deltaDays (4 * 86400) 0 = 4 ∧
    overdueEstFilter (3 * 86400) 3 c4Record = false ∧
    deltaDays (3 * 86400) 0 = 3 ∧
    (∀ now threshold : Int,
      overdueEstFilter now threshold { c4Record with estimateCompleteTime := none } = false) :=
  ⟨rfl, by decide, by decide, by decide, by decide, fun now threshold => by
    simp [overdueEstFilter]⟩

/-! ## C8 -/

/-- C8 (counterexample): the per-row link expression of the logic.py
detectors produces a URL even for the RMA value `N/A` (no null branch),
and on a qualifying record with a concrete RMA the detector raises
instead of emitting the templated link. -/
theorem c8_counterexample :
    bc_link_for_row "N/A" =
      "https://businesscentral.dynamics.com/7bcfb5b0-27a1-4e18-99d8-ca66570addd8/Production?company=PROD&page=70001&filter=\x27No.\x27%20IS%20%27N%2FA%27" ∧
    overdueShipFilter (2 * 86400) 1 c8Record = true ∧
    identify_overdue_for_shipping (2 * 86400) [c8Record] 1 = .error .attributeError := by
  refine ⟨by decide, by decide, rfl⟩

/-- C8 (amended): the detectors of logic.py build the Business Central
link unconditionally from the fixed template for every overdue row; the
null-on-empty guard exists only in the TXCELL dashboard page builder,
which returns no link exactly when the stripped RMA is `N/A` or empty and
the templated link otherwise. -/
theorem c8_bc_link_guard_amended :
    (∀ rma : String, bc_link_for_row rma =
      BC_BASE_URL ++ "?company=" ++ BC_COMPANY ++ "&page=" ++ BC_PAGE_ID ++ "&filter=\x27" ++
        quote_plus BC_RMA_FIELD_NAME ++ "\x27%20IS%20%27" ++ quote_plus rma ++ "%27") ∧
    (∀ rma : String, txcell_bc_link rma = none ↔ (stripStr rma = "N/A" ∨ stripStr rma = "")) ∧
    (∀ rma : String, stripStr rma ≠ "N/A" → stripStr rma ≠ "" →
      txcell_bc_link rma = some (bc_link_for_row rma)) := by
  refine ⟨fun _ => rfl, ?_, ?_⟩
  · intro rma
    by_cases h1 : stripStr rma = "N/A"
    · simp [txcell_bc_link, h1]
    · by_cases h2 : stripStr rma = ""
      · simp [txcell_bc_link, h1, h2]
      · simp [txcell_bc_link, h1, h2]
  · intro rma h1 h2
    simp [txcell_bc_link, h1, h2]

/-- Witness for C8 (amended) at a concrete RMA. -/
theorem c8_witness :
    txcell_bc_link "RMA100" = some (bc_link_for_row "RMA100") :=
  c8_bc_link_guard_amended.2.2 "RMA100" (by decide) (by decide)

/-! ## C7 -/

/-- C7 (counterexample): the raw status value `Maybe` is not a sentinel,
so `load_data_from_google_sheet` keeps it verbatim; the loaded status
field is neither `Yes` nor `No`, falsifying the claim that any ingested
value other than yes/no is mapped to `No`. -/
theorem c7_counterexample :
    (load_data_from_google_sheet (fun _ => none) c7Sheet).map Record.estimateComplete =
      ["Maybe"] ∧
    ¬ ("Maybe" = "No" ∨ "Maybe" = "Yes") := by
  exact ⟨by decide, by decide⟩

/-- Any status cell whose raw value is yes/no, the sentinel `N/A`, or one
of the replaced sentinel strings loads to `Yes` or `No`. -/
theorem loadStatusCell_cases (raw : Option String)
    (h : ∀ v, raw = some v → (v = "Yes" ∨ v = "No" ∨ v = "N/A" ∨ v ∈ sentinelStrings)) :
    loadStatusCell raw = "Yes" ∨ loadStatusCell raw = "No" := by
  cases raw with
  | none => right; decide
  | some v =>
    rcases h v rfl with rfl | rfl | rfl | hv
    · left; decide
    · right; decide
    · right; decide
    · right
      have e1 : replaceSentinels v = "N/A" := by
        unfold replaceSentinels
        rw [if_pos (by simpa using hv)]
      simp [loadStatusCell, loadStringCell, e1]

/-- C7 (amended): `load_data_from_google_sheet` maps exactly the sentinel
values (empty, `nan`, `None`, `NaN`, `NONE`, `NaT`, and for status fields
also `N/A`) to `No` on status fields and to `N/A` on the other string
fields (absent columns included); any other ingested status string is
kept verbatim, so the five status fields are guaranteed to be `Yes`/`No`
only when the raw status cells are yes/no, `N/A` or sentinels; time
fields load to a null timestamp when the column is absent or the cell is
unparseable. -/
theorem c7_load_normalization_amended :
    (∀ v : String, v ∈ sentinelStrings ∨ v = "N/A" → loadStatusCell (some v) = "No") ∧
    (∀ v : String, v ∉ sentinelStrings → v ≠ "N/A" → loadStatusCell (some v) = v) ∧
    loadStatusCell none = "No" ∧
    (∀ v : String, v ∈ sentinelStrings → loadStringCell (some v) = "N/A") ∧
    loadStringCell none = "N/A" ∧
    (∀ parse : String → Option Int, loadTimeCell parse none = none) ∧
    (∀ (parse : String → Option Int) (v : String), parse v = none →
      loadTimeCell parse (some v) = none) ∧
    (∀ (parse : String → Option Int) (headers : List String) (body : List (List String))
        (r : Record), r ∈ load_data_from_google_sheet parse (headers :: body) →
      (∀ row ∈ body, ∀ name ∈ statusColumnNames, ∀ v : String,
        cellOf headers row name = some v →
          (v = "Yes" ∨ v = "No" ∨ v = "N/A" ∨ v ∈ sentinelStrings)) →
      ∀ s ∈ r.statusList, s = "Yes" ∨ s = "No") := by
  refine ⟨?_, ?_, by decide, ?_, rfl, fun _ => rfl, ?_, ?_⟩
  · intro v h
    rcases h with h | rfl
    · have e1 : replaceSentinels v = "N/A" := by
        unfold replaceSentinels
        rw [if_pos (by simpa using h)]
      simp [loadStatusCell, loadStringCell, e1]
    · decide
  · intro v h1 h2
    have e1 : replaceSentinels v = v := by
      unfold replaceSentinels
      rw [if_neg (by simpa using h1)]
    simp [loadStatusCell, loadStringCell, e1, h2]
  · intro v h
    have e1 : replaceSentinels v = "N/A" := by
      unfold replaceSentinels
      rw [if_pos (by simpa using h)]
    simp [loadStringCell, e1]
  · intro parse v h
    simp [loadTimeCell, h]
  · intro parse headers body r hr hcond s hs
    simp only [load_data_from_google_sheet, List.mem_map] at hr
    obtain ⟨row, hrow, rfl⟩ := hr
    simp only [Record.statusList, loadRecord, List.mem_cons, List.not_mem_nil, or_false] at hs
    rcases hs with rfl | rfl | rfl | rfl | rfl
    · exact loadStatusCell_cases _ (fun v hv => hcond row hrow "Estimate Complete" (by decide) v hv)
    · exact loadStatusCell_cases _ (fun v hv => hcond row hrow "Estimate Approved" (by decide) v hv)
    · exact loadStatusCell_cases _ (fun v hv => hcond row hrow "Reminder Completed" (by decide) v hv)
    · exact loadStatusCell_cases _ (fun v hv => hcond row hrow "QA Approved" (by decide) v hv)
    · exact loadStatusCell_cases _ (fun v hv => hcond row hrow "Shipped" (by decide) v hv)

/-- Witness for C7 (amended) at concrete cells. -/
theorem c7_witness :
    loadStatusCell (some "nan") = "No" ∧ loadStatusCell (some "N/A") = "No" ∧
    loadStatusCell (some "Maybe") = "Maybe" :=
  ⟨c7_load_normalization_amended.1 "nan" (Or.inl (by decide)),
   c7_load_normalization_amended.1 "N/A" (Or.inr rfl),
   c7_load_normalization_amended.2.1 "Maybe" (by decide) (by decide)⟩

/-! ## C2 -/

/-- C2: for every table and date D, `generate_single_day_report_content`
selects a record for `needs_shipping` iff EstimateComplete=Yes,
EstimateApproved=Yes, QAApproved=Yes, Shipped is No or N/A, and the date
part of QAApproved.time equals D; for `needs_estimate_creation` iff
EstimateComplete=Yes, EstimateSent.sentToEmail is `N/A`, and the date
part of EstimateComplete.time equals D-1; and for `needs_reminder` iff
EstimateSent.sentToEmail is not `N/A`, ReminderCompleted is No,
EstimateApproved is No, and the date part of EstimateSent.time equals
D-2 (records quantified over the normalised data model). -/
theorem c2_daily_report_filters :
    ∀ (d : Int) (r : Record), r.wellFormed →
      (shippingFilter d r = true ↔
        (r.estimateComplete = "Yes" ∧ r.estimateApproved = "Yes" ∧ r.qaApproved = "Yes" ∧
          (r.shipped = "No" ∨ r.shipped = "N/A") ∧ r.qaApprovedTime.map tsDate = some d)) ∧
      (estimateCreationFilter d r = true ↔
        (r.estimateComplete = "Yes" ∧ r.estimateSentToEmail = "N/A" ∧
          r.estimateCompleteTime.map tsDate = some (d - 1))) ∧
      (reminderFilter d r = true ↔
        (r.estimateSentToEmail ≠ "N/A" ∧ r.reminderCompleted = "No" ∧
          r.estimateApproved = "No" ∧ r.estimateSentTime.map tsDate = some (d - 2))) ∧
      (∀ df : List Record, r ∈ df →
        (shippingFilter d r = true →
          shipTaskOf r ∈ (generate_single_day_report_content df d).needs_shipping) ∧
        (estimateCreationFilter d r = true →
          estTaskOf (d - 1) r ∈ (generate_single_day_report_content df d).needs_estimate_creation) ∧
        (reminderFilter d r = true →
          remTaskOf r ∈ (generate_single_day_report_content df d).needs_reminder)) := by
  intro d r hwf
  obtain ⟨h1, h2, h3, h4, h5, h6⟩ := hwf
  refine ⟨?_, ?_, ?_, ?_⟩
  · simp only [shippingFilter, Bool.and_eq_true]
    rw [isYes_iff h1, isYes_iff h2, isYes_iff h4, lowerIn_no_na_iff h5, dateEq_iff]
    simp only [and_assoc]
  · simp only [estimateCreationFilter, Bool.and_eq_true]
    rw [isYes_iff h1, sentNA_iff h6, dateEq_iff]
    simp only [and_assoc]
  · simp only [reminderFilter, Bool.and_eq_true]
    rw [sentNA_not_iff h6, lowerIn_no_na_eq_no h3, lowerIn_no_na_eq_no h2, dateEq_iff]
    simp only [and_assoc]
  · intro df hmem
    refine ⟨?_, ?_, ?_⟩ <;> intro hf
    · show shipTaskOf r ∈ (df.filter (shippingFilter d)).map shipTaskOf
      exact List.mem_map_of_mem _ (List.mem_filter.mpr ⟨hmem, hf⟩)
    · show estTaskOf (d - 1) r ∈ (df.filter (estimateCreationFilter d)).map (estTaskOf (d - 1))
      exact List.mem_map_of_mem _ (List.mem_filter.mpr ⟨hmem, hf⟩)
    · show remTaskOf r ∈ (df.filter (reminderFilter d)).map remTaskOf
      exact List.mem_map_of_mem _ (List.mem_filter.mpr ⟨hmem, hf⟩)

/-- Witness for C2 at a concrete QA-approved record on day 5. -/
theorem c2_witness :
    shipTaskOf c2Record ∈ (generate_single_day_report_content [c2Record] 5).needs_shipping :=
  ((c2_daily_report_filters 5 c2Record (by decide)).2.2.2 [c2Record] (by simp)).1 (by decide)

/-! ## C3 -/

/-- C3: the EOD reconciler classifies each snapshot task from the first
live record matching its normalised (RMA, Serial): a
`needs_estimate_creation` task is Completed iff the live
EstimateSent.sentToEmail is not `N/A`; a `needs_reminder` task iff the
live ReminderCompleted is Yes; a `needs_shipping` task iff the live
Shipped is Yes; a task with no live match is Pending; and
`adhoc_shipped_today` holds exactly the live records shipped with ship
date D whose normalised pair is not among the needs_shipping tasks. -/
theorem c3_eod_classification :
    ∀ (report : DailyReport) (live : List Record) (today : Int),
      (∀ r ∈ live, r.wellFormed) →
      ((generate_end_of_day_summary report live today).estimate_tasks =
          report.needs_estimate_creation.map (classify_estimate_task live) ∧
       (generate_end_of_day_summary report live today).reminder_tasks =
          report.needs_reminder.map (classify_reminder_task live) ∧
       (generate_end_of_day_summary report live today).shipping_tasks =
          report.needs_shipping.map (classify_shipping_task live)) ∧
      (∀ t : EstTask,
        (findLiveRecord live t.rma t.sn = none →
          (classify_estimate_task live t).status = "Pending") ∧
        (∀ r, findLiveRecord live t.rma t.sn = some r →
          ((classify_estimate_task live t).status = "Completed" ↔
            r.estimateSentToEmail ≠ "N/A"))) ∧
      (∀ t : RemTask,
        (findLiveRecord live t.rma t.sn = none →
          (classify_reminder_task live t).status = "Pending") ∧
        (∀ r, findLiveRecord live t.rma t.sn = some r →
          ((classify_reminder_task live t).status = "Completed" ↔
            r.reminderCompleted = "Yes"))) ∧
      (∀ t : ShipTask,
        (findLiveRecord live t.rma t.sn = none →
          (classify_shipping_task live t).status = "Pending") ∧
        (∀ r, findLiveRecord live t.rma t.sn = some r →
          ((classify_shipping_task live t).status = "Completed" ↔ r.shipped = "Yes"))) ∧
      (∀ e : AdhocEntry,
        e ∈ (generate_end_of_day_summary report live today).adhoc_shipped_today ↔
          ∃ r, r ∈ live ∧ r.shipped = "Yes" ∧ r.shippedTime.map tsDate = some today ∧
            (pyNorm r.rma, pyNorm r.sn) ∉
              report.needs_shipping.map (fun t => (pyNorm t.rma, pyNorm t.sn)) ∧
            e = ⟨r.rma, r.sn, r.spcCode, r.shippedTime⟩) := by
  intro report live today hwf
  refine ⟨⟨rfl, rfl, rfl⟩, ?_, ?_, ?_, ?_⟩
  · intro t
    constructor
    · intro hnone
      simp [classify_estimate_task, hnone]
    · intro r hr
      have hwr := hwf r (List.mem_of_find?_eq_some hr)
      have h6 := hwr.2.2.2.2.2
      simp only [classify_estimate_task, hr]
      by_cases hb : (lowerStr r.estimateSentToEmail == "n/a") = true
      · have hNA : r.estimateSentToEmail = "N/A" := (sentNA_iff h6).mp hb
        simp only [hb, hNA]
        decide
      · have hb2 : (lowerStr r.estimateSentToEmail == "n/a") = false := by
          simpa using hb
        have hne : r.estimateSentToEmail ≠ "N/A" := by
          intro hNA
          exact hb ((sentNA_iff h6).mpr hNA)
        simp [hb2, hne]
  · intro t
    constructor
    · intro hnone
      simp [classify_reminder_task, hnone]
    · intro r hr
      have hwr := hwf r (List.mem_of_find?_eq_some hr)
      simp only [classify_reminder_task, hr]
      rcases hwr.2.2.1 with h | h <;> rw [h] <;> decide
  · intro t
    constructor
    · intro hnone
      simp [classify_shipping_task, hnone]
    · intro r hr
      have hwr := hwf r (List.mem_of_find?_eq_some hr)
      simp only [classify_shipping_task, hr]
      rcases hwr.2.2.2.2.1 with h | h <;> rw [h] <;> decide
  · intro e
    simp only [generate_end_of_day_summary, List.mem_map, List.mem_filter]
    constructor
    · rintro ⟨r, ⟨hrl, hfil⟩, rfl⟩
      have h5 := (hwf r hrl).2.2.2.2.1
      simp only [adhocFilter, Bool.and_eq_true] at hfil
      obtain ⟨⟨hyes, hdate⟩, hnotin⟩ := hfil
      exact ⟨r, hrl, (lowerYes_iff h5).mp hyes, (dateEq_iff _ _).mp hdate,
        by simpa using hnotin, rfl⟩
    · rintro ⟨r, hrl, hship, hdate, hnot, rfl⟩
      have h5 := (hwf r hrl).2.2.2.2.1
      refine ⟨r, ⟨hrl, ?_⟩, rfl⟩
      simp only [adhocFilter, Bool.and_eq_true]
      exact ⟨⟨(lowerYes_iff h5).mpr hship, (dateEq_iff _ _).mpr hdate⟩, by simpa using hnot⟩

/-- Witness for C3: the day-report shipping task is marked Completed once
the live record is shipped. -/
theorem c3_witness :
    (classify_shipping_task c3Live c3ShipTask).status = "Completed" :=
  (((c3_eod_classification c3Report c3Live 0 (by decide)).2.2.2.1 c3ShipTask).2
    c3LiveRecord (by decide)).mpr rfl

/-! ## C5 -/

/-- The scan returns `-1` exactly when no row matches. -/
theorem findRowAux_neg (rmaIdx snIdx : Nat) (rmaN snN : String) (snOnly : Bool) :
    ∀ (rows : List (List String)) (i : Nat),
      findRowAux rmaIdx snIdx rmaN snN snOnly rows i = -1 ↔
        ∀ row ∈ rows, rowMatches rmaIdx snIdx rmaN snN snOnly row = false := by
  intro rows
  induction rows with
  | nil => intro i; simp [findRowAux]
  | cons row rest ih =>
    intro i
    by_cases h : rowMatches rmaIdx snIdx rmaN snN snOnly row = true
    · simp only [findRowAux, h, if_true]
      constructor
      · intro habs; exact absurd habs (by omega)
      · intro hall; exact absurd (hall row (by simp)) (by simp [h])
    · have hf : rowMatches rmaIdx snIdx rmaN snN snOnly row = false := by simpa using h
      simp only [findRowAux, hf, Bool.false_eq_true, if_false]
      rw [ih (i + 1)]
      constructor
      · intro hall r hr
        rcases List.mem_cons.mp hr with rfl | hr2
        · exact hf
        · exact hall r hr2
      · intro hall r hr
        exact hall r (List.mem_cons_of_mem _ hr)

/-- The scan returns the 1-based position of the first matching row. -/
theorem findRowAux_first (rmaIdx snIdx : Nat) (rmaN snN : String) (snOnly : Bool) :
    ∀ (rows : List (List String)) (i k : Nat) (hk : k < rows.length),
      rowMatches rmaIdx snIdx rmaN snN snOnly (rows.get ⟨k, hk⟩) = true →
      (∀ m (hm : m < k),
        rowMatches rmaIdx snIdx rmaN snN snOnly (rows.get ⟨m, hm.trans hk⟩) = false) →
      findRowAux rmaIdx snIdx rmaN snN snOnly rows i = ((i + k : Nat) : Int) := by
  intro rows
  induction rows with
  | nil => intro i k hk; exact absurd hk (by simp)
  | cons row rest ih =>
    intro i k hk hmatch hprev
    cases k with
    | zero =>
      have h0 : rowMatches rmaIdx snIdx rmaN snN snOnly row = true := hmatch
      simp [findRowAux, h0]
    | succ k2 =>
      have h0 : rowMatches rmaIdx snIdx rmaN snN snOnly row = false := by
        have := hprev 0 (Nat.succ_pos k2)
        simpa using this
      have hk2 : k2 < rest.length := by
        simpa using Nat.lt_of_succ_lt_succ hk
      have hrec := ih (i + 1) k2 hk2 (by simpa using hmatch)
        (fun m hm => by
          have := hprev (m + 1) (Nat.succ_lt_succ hm)
          simpa using this)
      simp only [findRowAux, h0, Bool.false_eq_true, if_false]
      rw [hrec]
      omega

/-- C5: `find_row_in_gsheet` obeys the null-RMA wildcard rule: when the
normalised search RMA is `n/a` or empty it returns the 1-based index of
the first row whose own stored RMA also normalises to `n/a`/empty and
whose serial matches after normalisation; with a concrete RMA it returns
the first row where both normalised fields match; and it returns -1
exactly when no row matches. -/
theorem c5_find_row_characterization :
    ∀ (allValues : List (List String)) (headers : List String) (searchRma searchSn : String)
      (rmaIdx snIdx : Nat),
      listIndex "RMA" headers = some rmaIdx →
      listIndex "S/N" headers = some snIdx →
      ((["n/a", ""] : List String).contains (pyNorm searchRma) = true ↔
        (pyNorm searchRma = "n/a" ∨ pyNorm searchRma = "")) ∧
      (find_row_in_gsheet allValues searchRma searchSn headers = -1 ↔
        ∀ row ∈ allValues.drop 1,
          rowMatches rmaIdx snIdx (pyNorm searchRma) (pyNorm searchSn)
            ((["n/a", ""] : List String).contains (pyNorm searchRma)) row = false) ∧
      (∀ k (hk : k < (allValues.drop 1).length),
        rowMatches rmaIdx snIdx (pyNorm searchRma) (pyNorm searchSn)
          ((["n/a", ""] : List String).contains (pyNorm searchRma))
          ((allValues.drop 1).get ⟨k, hk⟩) = true →
        (∀ m (hm : m < k),
          rowMatches rmaIdx snIdx (pyNorm searchRma) (pyNorm searchSn)
            ((["n/a", ""] : List String).contains (pyNorm searchRma))
            ((allValues.drop 1).get ⟨m, hm.trans hk⟩) = false) →
        find_row_in_gsheet allValues searchRma searchSn headers = ((k + 2 : Nat) : Int)) ∧
      (∀ row : List String,
        rowMatches rmaIdx snIdx (pyNorm searchRma) (pyNorm searchSn)
          ((["n/a", ""] : List String).contains (pyNorm searchRma)) row = true ↔
          (if pyNorm searchRma = "n/a" ∨ pyNorm searchRma = "" then
            pyNorm (row.getD snIdx "") = pyNorm searchSn ∧
              (pyNorm (row.getD rmaIdx "") = "n/a" ∨ pyNorm (row.getD rmaIdx "") = "")
          else
            pyNorm (row.getD rmaIdx "") = pyNorm searchRma ∧
              pyNorm (row.getD snIdx "") = pyNorm searchSn)) := by
  intro allValues headers searchRma searchSn rmaIdx snIdx hR hS
  have hcontains : (["n/a", ""] : List String).contains (pyNorm searchRma) = true ↔
      (pyNorm searchRma = "n/a" ∨ pyNorm searchRma = "") := by
    simp [List.contains]
  have hfind : find_row_in_gsheet allValues searchRma searchSn headers =
      findRowAux rmaIdx snIdx (pyNorm searchRma) (pyNorm searchSn)
        ((["n/a", ""] : List String).contains (pyNorm searchRma)) (allValues.drop 1) 2 := by
    simp [find_row_in_gsheet, hR, hS]
  refine ⟨hcontains, ?_, ?_, ?_⟩
  · rw [hfind]
    exact findRowAux_neg rmaIdx snIdx (pyNorm searchRma) (pyNorm searchSn) _ (allValues.drop 1) 2
  · intro k hk hmatch hprev
    rw [hfind]
    rw [findRowAux_first rmaIdx snIdx (pyNorm searchRma) (pyNorm searchSn) _
      (allValues.drop 1) 2 k hk hmatch hprev]
    omega
  · intro row
    by_cases hso : (["n/a", ""] : List String).contains (pyNorm searchRma) = true
    · rw [hso, if_pos (hcontains.mp hso)]
      simp [rowMatches]
    · have hso2 : (["n/a", ""] : List String).contains (pyNorm searchRma) = false := by
        simpa using hso
      have hnot : ¬ (pyNorm searchRma = "n/a" ∨ pyNorm searchRma = "") := fun hc =>
        hso (hcontains.mpr hc)
      rw [hso2, if_neg hnot]
      simp [rowMatches]

/-- Witness for C5 at the spec scenario: searching RMA `N/A`, serial
`SN1` skips the row with a concrete RMA and finds the row with empty RMA
and serial `sn1` (sheet row 3). -/
theorem c5_witness :
    find_row_in_gsheet c5Sheet "N/A" "SN1" ["RMA", "S/N"] = 3 := by
  have h := c5_find_row_characterization c5Sheet ["RMA", "S/N"] "N/A" "SN1" 0 1
    (by decide) (by decide)
  have hres := h.2.2.1 1 (by decide) (by decide)
    (fun m hm => by
      have hm0 : m = 0 := by omega
      subst hm0
      show rowMatches 0 1 (pyNorm "N/A") (pyNorm "SN1")
        ((["n/a", ""] : List String).contains (pyNorm "N/A")) ["RMA100", "SN1"] = false
      decide)
  simpa using hres

/-! ## Archive lemmas for C1 and C6 -/

/-- After a save attempt the date of the report is archived. -/
theorem save_fst_mem (rep : DailyReport) (archive : List (Int × DailyReport)) :
    rep.date ∈ (save_report_to_archive rep archive).1.map Prod.fst := by
  unfold save_report_to_archive
  by_cases h : rep.date ∈ archive.map Prod.fst
  · rw [if_pos h]; exact h
  · rw [if_neg h]; simp

/-- Saving never removes archived dates. -/
theorem save_fst_mono (rep : DailyReport) (archive : List (Int × DailyReport)) (d : Int)
    (h : d ∈ archive.map Prod.fst) :
    d ∈ (save_report_to_archive rep archive).1.map Prod.fst := by
  unfold save_report_to_archive
  by_cases hp : rep.date ∈ archive.map Prod.fst
  · rw [if_pos hp]; exact h
  · rw [if_neg hp]; simp only [List.map_append]; exact List.mem_append_left _ h

/-- When the loop did not abort, today is archived at the end. -/
theorem catch_up_go_today_mem (df : List Record) (start today : Int) :
    ∀ (gap : Nat) (archive : List (Int × DailyReport)) (saved : List DailyReport),
      (catch_up_go df start today gap archive saved).aborted = false →
      today ∈ (catch_up_go df start today gap archive saved).archive.map Prod.fst := by
  intro gap
  induction gap with
  | zero =>
    intro archive saved _
    simp only [catch_up_go]
    exact save_fst_mem (generate_single_day_report_content df today) archive
  | succ g ih =>
    intro archive saved hab
    simp only [catch_up_go] at hab ⊢
    by_cases hb : today - ((g : Int) + 1) + 1 - start > 30
    · rw [if_pos hb] at hab
      exact absurd hab (by simp)
    · rw [if_neg hb] at hab ⊢
      exact ih _ _ hab

theorem le_foldl_max : ∀ (l : List Int) (a : Int), a ≤ l.foldl max a := by
  intro l
  induction l with
  | nil => intro a; simp
  | cons b t ih =>
    intro a
    simp only [List.foldl_cons]
    exact le_trans (le_max_left a b) (ih (max a b))

theorem mem_le_foldl_max : ∀ (l : List Int) (a x : Int), x ∈ l → x ≤ l.foldl max a := by
  intro l
  induction l with
  | nil => intro a x hx; cases hx
  | cons b t ih =>
    intro a x hx
    simp only [List.foldl_cons]
    rcases List.mem_cons.mp hx with rfl | hx2
    · exact le_trans (le_max_right a x) (le_foldl_max t (max a x))
    · exact ih (max a b) x hx2

/-- The last archived date is at least any archived date. -/
theorem get_last_ge (archive : List (Int × DailyReport)) (today : Int)
    (h : today ∈ archive.map Prod.fst) :
    today ≤ get_last_report_date_from_archive archive today := by
  unfold get_last_report_date_from_archive
  cases hm : archive.map Prod.fst with
  | nil => rw [hm] at h; cases h
  | cons d ds =>
    rw [hm] at h
    show today ≤ ds.foldl max d
    rcases List.mem_cons.mp h with rfl | h2
    · exact le_foldl_max ds today
    · exact mem_le_foldl_max ds d today h2

/-- One save step of the loop preserves the loop invariants: saved dates
stay distinct, saved reports stay archived, and every saved report is the
generated report of a date within 30 days of the start. -/
theorem save_step_invariants (df : List Record) (start c : Int) (rep : DailyReport)
    (hrep : rep = generate_single_day_report_content df c)
    (archive : List (Int × DailyReport)) (saved : List DailyReport)
    (hge : start ≤ c) (hwin : c - start ≤ 30)
    (hnod : (saved.map DailyReport.date).Nodup)
    (hmem : ∀ r ∈ saved, (r.date, r) ∈ archive)
    (hwins : ∀ r ∈ saved, ∃ k : Nat, (k : Int) ≤ 30 ∧ r.date = start + (k : Int) ∧
      r = generate_single_day_report_content df r.date) :
    (((if (save_report_to_archive rep archive).2 then saved ++ [rep] else saved).map
        DailyReport.date).Nodup) ∧
    (∀ r ∈ (if (save_report_to_archive rep archive).2 then saved ++ [rep] else saved),
      (r.date, r) ∈ (save_report_to_archive rep archive).1) ∧
    (∀ r ∈ (if (save_report_to_archive rep archive).2 then saved ++ [rep] else saved),
      ∃ k : Nat, (k : Int) ≤ 30 ∧ r.date = start + (k : Int) ∧
        r = generate_single_day_report_content df r.date) := by
  have hdate : rep.date = c := by subst hrep; rfl
  by_cases hp : rep.date ∈ archive.map Prod.fst
  · have hsv : save_report_to_archive rep archive = (archive, false) := by
      unfold save_report_to_archive
      rw [if_pos hp]
    rw [hsv]
    exact ⟨hnod, hmem, hwins⟩
  · have hsv : save_report_to_archive rep archive = (archive ++ [(rep.date, rep)], true) := by
      unfold save_report_to_archive
      rw [if_neg hp]
    rw [hsv]
    refine ⟨?_, ?_, ?_⟩
    · show ((saved ++ [rep]).map DailyReport.date).Nodup
      rw [List.map_append, List.nodup_append]
      refine ⟨hnod, by simp, ?_⟩
      intro x hx hx2
      simp only [List.map_cons, List.map_nil, List.mem_cons, List.not_mem_nil,
        or_false] at hx2
      subst hx2
      obtain ⟨r, hr, hrd⟩ := List.mem_map.mp hx
      apply hp
      have hmr : r.date ∈ archive.map Prod.fst :=
        List.mem_map.mpr ⟨(r.date, r), hmem r hr, rfl⟩
      rwa [hrd] at hmr
    · show ∀ r ∈ saved ++ [rep], (r.date, r) ∈ archive ++ [(rep.date, rep)]
      intro r hr
      rcases List.mem_append.mp hr with h | h
      · exact List.mem_append_left _ (hmem r h)
      · simp only [List.mem_cons, List.not_mem_nil, or_false] at h
        subst h
        exact List.mem_append_right _ (by simp)
    · show ∀ r ∈ saved ++ [rep], ∃ k : Nat, (k : Int) ≤ 30 ∧ r.date = start + (k : Int) ∧
        r = generate_single_day_report_content df r.date
      intro r hr
      rcases List.mem_append.mp hr with h | h
      · exact hwins r h
      · simp only [List.mem_cons, List.not_mem_nil, or_false] at h
        subst h
        refine ⟨(c - start).toNat, ?_, ?_, ?_⟩
        · rw [Int.toNat_of_nonneg (by omega)]; omega
        · rw [hdate, Int.toNat_of_nonneg (by omega)]; omega
        · rw [hdate]; exact hrep

/-- The loop invariants hold at the end of the run. -/
theorem catch_up_go_spec (df : List Record) (start today : Int) :
    ∀ (gap : Nat) (archive : List (Int × DailyReport)) (saved : List DailyReport),
      start ≤ today - (gap : Int) →
      today - (gap : Int) - start ≤ 30 →
      (saved.map DailyReport.date).Nodup →
      (∀ r ∈ saved, (r.date, r) ∈ archive) →
      (∀ r ∈ saved, ∃ k : Nat, (k : Int) ≤ 30 ∧ r.date = start + (k : Int) ∧
        r = generate_single_day_report_content df r.date) →
      (((catch_up_go df start today gap archive saved).saved.map DailyReport.date).Nodup ∧
       (∀ r ∈ (catch_up_go df start today gap archive saved).saved,
          (r.date, r) ∈ (catch_up_go df start today gap archive saved).archive) ∧
       (∀ r ∈ (catch_up_go df start today gap archive saved).saved,
          ∃ k : Nat, (k : Int) ≤ 30 ∧ r.date = start + (k : Int) ∧
            r = generate_single_day_report_content df r.date)) := by
  intro gap
  induction gap with
  | zero =>
    intro archive saved hge hwin hnod hmem hwins
    have hge0 : start ≤ today := by simpa using hge
    have hwin0 : today - start ≤ 30 := by
      have := hwin
      simpa using this
    simp only [catch_up_go]
    exact save_step_invariants df start today (generate_single_day_report_content df today)
      rfl archive saved hge0 hwin0 hnod hmem hwins
  | succ g ih =>
    intro archive saved hge hwin hnod hmem hwins
    have hge1 : start ≤ today - ((g : Int) + 1) := by push_cast at hge; omega
    have hwin1 : today - ((g : Int) + 1) - start ≤ 30 := by push_cast at hwin; omega
    obtain ⟨hnod2, hmem2, hwins2⟩ := save_step_invariants df start (today - ((g : Int) + 1))
      (generate_single_day_report_content df (today - ((g : Int) + 1))) rfl archive saved
      hge1 hwin1 hnod hmem hwins
    simp only [catch_up_go]
    by_cases hb : today - ((g : Int) + 1) + 1 - start > 30
    · rw [if_pos hb]
      exact ⟨hnod2, hmem2, hwins2⟩
    · rw [if_neg hb]
      exact ih _ _ (by omega) (by omega) hnod2 hmem2 hwins2

/-! ## C6 -/

/-- C6: the catch-up loop is a total function of its inputs (so it
terminates); in one run it saves reports for at most 31 distinct dates,
all lying in the consecutive window of 31 days starting the day after the
last archived date, each being the generated report of its date; and
every saved report is present in the resulting archive, so partial
progress survives an abort. -/
theorem c6_catch_up_bounded :
    ∀ (df : List Record) (last today : Int) (archive : List (Int × DailyReport)),
      (catch_up df last today archive).saved.length ≤ 31 ∧
      ((catch_up df last today archive).saved.map DailyReport.date).Nodup ∧
      (∀ r ∈ (catch_up df last today archive).saved,
        ∃ k : Nat, (k : Int) ≤ 30 ∧ r.date = (last + 1) + (k : Int) ∧
          r = generate_single_day_report_content df r.date) ∧
      (∀ r ∈ (catch_up df last today archive).saved,
        (r.date, r) ∈ (catch_up df last today archive).archive) := by
  intro df last today archive
  unfold catch_up
  by_cases hs : last + 1 > today
  · rw [if_pos hs]
    refine ⟨by simp, by simp, ?_, ?_⟩ <;>
      · intro r hr
        exact absurd hr (by simp)
  · rw [if_neg hs]
    have hcast : ((today - (last + 1)).toNat : Int) = today - (last + 1) :=
      Int.toNat_of_nonneg (by omega)
    obtain ⟨hnod, hmem, hwins⟩ := catch_up_go_spec df (last + 1) today
      (today - (last + 1)).toNat archive []
      (by rw [hcast]; omega) (by rw [hcast]; omega) (by simp) (by simp) (by simp)
    refine ⟨?_, hnod, hwins, hmem⟩
    have hsub : ((catch_up_go df (last + 1) today (today - (last + 1)).toNat archive
        []).saved.map DailyReport.date) ⊆ dateWindow (last + 1) := by
      intro x hx
      obtain ⟨r, hr, rfl⟩ := List.mem_map.mp hx
      obtain ⟨k, hk, hdate, _⟩ := hwins r hr
      rw [hdate]
      exact List.mem_map.mpr ⟨k, List.mem_range.mpr (by omega), rfl⟩
    have hlen := (List.Nodup.subperm hnod hsub).length_le
    rw [List.length_map] at hlen
    have hwl : (dateWindow (last + 1)).length = 31 := by
      rw [dateWindow, List.length_map, List.length_range]
    omega

/-! ## C1 -/

/-- C1: archiving is idempotent: when the date key of a report is already
present, `save_report_to_archive` leaves the archive unchanged and
returns false (never overwriting, never appending a duplicate); and
running the catch-up a second time immediately after a completed run,
with no table changes in between, saves zero new days and leaves the
archive unchanged. -/
theorem c1_save_idempotent_and_second_run_noop :
    (∀ (report : DailyReport) (archive : List (Int × DailyReport)),
      report.date ∈ archive.map Prod.fst →
      save_report_to_archive report archive = (archive, false)) ∧
    (∀ (df : List Record) (today : Int) (archive : List (Int × DailyReport)),
      (catch_up_from_archive df today archive).aborted = false →
      catch_up_from_archive df today (catch_up_from_archive df today archive).archive =
        ⟨(catch_up_from_archive df today archive).archive, [], false⟩) := by
  constructor
  · intro report archive h
    unfold save_report_to_archive
    rw [if_pos h]
  · intro df today archive hab
    by_cases hs : get_last_report_date_from_archive archive today + 1 > today
    · have h1 : catch_up_from_archive df today archive = ⟨archive, [], false⟩ := by
        unfold catch_up_from_archive catch_up
        rw [if_pos hs]
      rw [h1]
      exact h1
    · have hentered : catch_up_from_archive df today archive =
          catch_up_go df (get_last_report_date_from_archive archive today + 1) today
            (today - (get_last_report_date_from_archive archive today + 1)).toNat archive [] := by
        unfold catch_up_from_archive catch_up
        rw [if_neg hs]
      rw [hentered] at hab ⊢
      have htoday := catch_up_go_today_mem df
        (get_last_report_date_from_archive archive today + 1) today
        (today - (get_last_report_date_from_archive archive today + 1)).toNat archive [] hab
      have hge := get_last_ge _ today htoday
      have hs2 : get_last_report_date_from_archive
          (catch_up_go df (get_last_report_date_from_archive archive today + 1) today
            (today - (get_last_report_date_from_archive archive today + 1)).toNat
            archive []).archive today + 1 > today := by omega
      unfold catch_up_from_archive catch_up
      rw [if_pos hs2]

/-- Witness for C1 at a concrete archive and a concrete first run. -/
theorem c1_witness :
    save_report_to_archive (generate_single_day_report_content [] 0)
        [(0, generate_single_day_report_content [] 0)] =
      ([(0, generate_single_day_report_content [] 0)], false) ∧
    (catch_up_from_archive [] 0 []).aborted = false ∧
    catch_up_from_archive [] 0 (catch_up_from_archive [] 0 []).archive =
      ⟨(catch_up_from_archive [] 0 []).archive, [], false⟩ :=
  ⟨c1_save_idempotent_and_second_run_noop.1 _ _ (by decide),
   by decide,
   c1_save_idempotent_and_second_run_noop.2 [] 0 [] (by decide)⟩

end SD
